import Mathlib

set_option maxRecDepth 1000000
set_option maxHeartbeats 2000000

/-!
Verification development for the tululu.org book-library scraper
(`parse_tululu_category.py`).  The crawl-and-extract pipeline is embedded
shallowly: HTTP is an oracle `String → Option Response` (`none` models a
transport error raised by `requests.get`), HTML parsing is an oracle
`String → Soup` giving the results of the CSS-selector queries the script
performs, and every side effect (log lines emitted through `logger.error`,
files written) is returned explicitly.  All machine arithmetic is `Nat`
with explicit `% 2 ^ 32`, and every definition is executable by the kernel.
-/

namespace Tululu

/-! MD5, modelling Python's `hashlib.new('md5')` used by `get_hash`. -/

/-- Modulus for 32-bit words. -/
def u32 : Nat := 4294967296

/-- Bitwise AND of the low `k` bits, structural in the fuel `k`. -/
def bitAndAux : Nat → Nat → Nat → Nat
  | 0, _, _ => 0
  | k + 1, a, b => (if a % 2 = 1 && b % 2 = 1 then 1 else 0) + 2 * bitAndAux k (a / 2) (b / 2)

/-- Bitwise OR of the low `k` bits. -/
def bitOrAux : Nat → Nat → Nat → Nat
  | 0, _, _ => 0
  | k + 1, a, b => (if a % 2 = 1 || b % 2 = 1 then 1 else 0) + 2 * bitOrAux k (a / 2) (b / 2)

/-- Bitwise XOR of the low `k` bits. -/
def bitXorAux : Nat → Nat → Nat → Nat
  | 0, _, _ => 0
  | k + 1, a, b => (if (a % 2 = 1) ≠ (b % 2 = 1) then 1 else 0) + 2 * bitXorAux k (a / 2) (b / 2)

/-- 32-bit AND. -/
def and32 (a b : Nat) : Nat := bitAndAux 32 a b

/-- 32-bit OR. -/
def or32 (a b : Nat) : Nat := bitOrAux 32 a b

/-- 32-bit XOR. -/
def xor32 (a b : Nat) : Nat := bitXorAux 32 a b

/-- 32-bit complement. -/
def not32 (a : Nat) : Nat := xor32 a 4294967295

/-- 32-bit left rotation. -/
def rotl32 (x s : Nat) : Nat := (x * 2 ^ s + x / 2 ^ (32 - s)) % u32

/-- Round function of MD5 (`F`, `G`, `H`, `I` selected by the step index). -/
def md5F (i b c d : Nat) : Nat :=
  if i < 16 then or32 (and32 b c) (and32 (not32 b) d)
  else if i < 32 then or32 (and32 d b) (and32 (not32 d) c)
  else if i < 48 then xor32 b (xor32 c d)
  else xor32 c (or32 b (not32 d))

/-- Message-word schedule of MD5. -/
def md5G (i : Nat) : Nat :=
  if i < 16 then i % 16
  else if i < 32 then (5 * i + 1) % 16
  else if i < 48 then (3 * i + 5) % 16
  else (7 * i) % 16

/-- Sine-derived additive constants of MD5. -/
def md5K : List Nat :=
  [0xd76aa478, 0xe8c7b756, 0x242070db, 0xc1bdceee,
   0xf57c0faf, 0x4787c62a, 0xa8304613, 0xfd469501,
   0x698098d8, 0x8b44f7af, 0xffff5bb1, 0x895cd7be,
   0x6b901122, 0xfd987193, 0xa679438e, 0x49b40821,
   0xf61e2562, 0xc040b340, 0x265e5a51, 0xe9b6c7aa,
   0xd62f105d, 0x02441453, 0xd8a1e681, 0xe7d3fbc8,
   0x21e1cde6, 0xc33707d6, 0xf4d50d87, 0x455a14ed,
   0xa9e3e905, 0xfcefa3f8, 0x676f02d9, 0x8d2a4c8a,
   0xfffa3942, 0x8771f681, 0x6d9d6122, 0xfde5380c,
   0xa4beea44, 0x4bdecfa9, 0xf6bb4b60, 0xbebfbc70,
   0x289b7ec6, 0xeaa127fa, 0xd4ef3085, 0x04881d05,
   0xd9d4d039, 0xe6db99e5, 0x1fa27cf8, 0xc4ac5665,
   0xf4292244, 0x432aff97, 0xab9423a7, 0xfc93a039,
   0x655b59c3, 0x8f0ccc92, 0xffeff47d, 0x85845dd1,
   0x6fa87e4f, 0xfe2ce6e0, 0xa3014314, 0x4e0811a1,
   0xf7537e82, 0xbd3af235, 0x2ad7d2bb, 0xeb86d391]

/-- Per-step rotation amounts of MD5. -/
def md5S : List Nat :=
  [7, 12, 17, 22, 7, 12, 17, 22, 7, 12, 17, 22, 7, 12, 17, 22,
   5, 9, 14, 20, 5, 9, 14, 20, 5, 9, 14, 20, 5, 9, 14, 20,
   4, 11, 16, 23, 4, 11, 16, 23, 4, 11, 16, 23, 4, 11, 16, 23,
   6, 10, 15, 21, 6, 10, 15, 21, 6, 10, 15, 21, 6, 10, 15, 21]

/-- Little-endian decoding of four bytes into a 32-bit word. -/
def le32 (b0 b1 b2 b3 : Nat) : Nat := b0 + 256 * b1 + 65536 * b2 + 16777216 * b3

/-- Decode a 64-byte block into sixteen little-endian words. -/
def decodeBlock : List Nat → List Nat
  | b0 :: b1 :: b2 :: b3 :: rest => le32 b0 b1 b2 b3 :: decodeBlock rest
  | _ => []

/-- One of the 64 steps of the MD5 compression function. -/
def md5Step (M : List Nat) (st : Nat × Nat × Nat × Nat) (i : Nat) : Nat × Nat × Nat × Nat :=
  match st with
  | (a, b, c, d) =>
    let f := md5F i b c d
    let tmp := (b + rotl32 ((a + f + md5K.getD i 0 + M.getD (md5G i) 0) % u32) (md5S.getD i 0)) % u32
    (d, tmp, b, c)

/-- MD5 compression of one 64-byte block. -/
def md5Block (h : Nat × Nat × Nat × Nat) (block : List Nat) : Nat × Nat × Nat × Nat :=
  let M := decodeBlock block
  match h, (List.range 64).foldl (md5Step M) h with
  | (h0, h1, h2, h3), (a, b, c, d) =>
    ((h0 + a) % u32, (h1 + b) % u32, (h2 + c) % u32, (h3 + d) % u32)

/-- Chunk a padded message into 64-byte blocks, structural in the byte count. -/
def toBlocksAux : Nat → List Nat → List (List Nat)
  | 0, _ => []
  | k + 1, bytes =>
    match bytes with
    | [] => []
    | _ => bytes.take 64 :: toBlocksAux k (bytes.drop 64)

/-- Merkle-Damgard padding of MD5: a 1-bit, zeros to 56 mod 64, then the
bit length as a 64-bit little-endian quantity. -/
def md5pad (msg : List Nat) : List Nat :=
  let len := msg.length
  let zeros := (119 - len % 64) % 64
  let bitLen := (len * 8) % 2 ^ 64
  msg ++ [128] ++ List.replicate zeros 0 ++ (List.range 8).map (fun i => bitLen / 2 ^ (8 * i) % 256)

/-- MD5 digest of a byte sequence as the four 32-bit state words. -/
def md5Digest (msg : List Nat) : Nat × Nat × Nat × Nat :=
  (toBlocksAux (md5pad msg).length (md5pad msg)).foldl md5Block
    (0x67452301, 0xefcdab89, 0x98badcfe, 0x10325476)

/-- Lower-case hex digit. -/
def hexDigitChar (n : Nat) : Char := if n < 10 then Char.ofNat (48 + n) else Char.ofNat (87 + n)

/-- Two hex digits of one byte. -/
def byteHex (b : Nat) : List Char := [hexDigitChar (b / 16), hexDigitChar (b % 16)]

/-- Hex characters of one state word, least significant byte first. -/
def word32LEHex (w : Nat) : List Char :=
  byteHex (w % 256) ++ byteHex (w / 256 % 256) ++ byteHex (w / 65536 % 256) ++ byteHex (w / 16777216 % 256)

/-- Hex-encoded MD5 digest, as returned by Python's `hexdigest()`. -/
def md5hex (msg : List Nat) : String :=
  match md5Digest msg with
  | (a, b, c, d) => String.mk (word32LEHex a ++ word32LEHex b ++ word32LEHex c ++ word32LEHex d)

/-! Python string and path primitives used by the script, modelled over
`List Char` so that every operation is structurally recursive. -/

/-- UTF-8 encoding of one code point, modelling Python's `str.encode()`. -/
def utf8EncodeChar (c : Char) : List Nat :=
  let n := c.toNat
  if n < 128 then [n]
  else if n < 2048 then [192 + n / 64, 128 + n % 64]
  else if n < 65536 then [224 + n / 4096, 128 + (n / 64) % 64, 128 + n % 64]
  else [240 + n / 262144, 128 + (n / 4096) % 64, 128 + (n / 64) % 64, 128 + n % 64]

/-- UTF-8 encoding of a string. -/
def utf8Encode (s : String) : List Nat := s.data.flatMap utf8EncodeChar

/-- Value of one lower-case hex character. -/
def hexVal (c : Char) : Nat :=
  if c.toNat < 58 then c.toNat - 48 else c.toNat - 87

/-- Bytes of a hex string, two characters per byte. -/
def hexToBytesAux : List Char → List Nat
  | c1 :: c2 :: rest => (16 * hexVal c1 + hexVal c2) :: hexToBytesAux rest
  | _ => []

/-- Bytes of a hex string. -/
def hexToBytes (s : String) : List Nat := hexToBytesAux s.data

/-- Test whether `sep` is an initial segment of `hay`. -/
def leadsWith : List Char → List Char → Bool
  | [], _ => true
  | _ :: _, [] => false
  | a :: as, b :: bs => a = b && leadsWith as bs

/-- Splitting worker, structural in the fuel, which bounds the remaining
length of `hay`; models Python's `str.split(sep)` for a non-empty `sep`. -/
def splitSepFuel (sep : List Char) : Nat → List Char → List Char → List (List Char)
  | 0, hay, cur => [cur.reverse ++ hay]
  | k + 1, hay, cur =>
    match hay with
    | [] => [cur.reverse]
    | c :: rest =>
      if leadsWith sep hay then
        cur.reverse :: splitSepFuel sep k (hay.drop sep.length) []
      else
        splitSepFuel sep k rest (c :: cur)

/-- Python's `str.split(sep)` for a non-empty separator. -/
def pySplit (s sep : String) : List String :=
  (splitSepFuel sep.data (s.data.length + 1) s.data []).map String.mk

/-- Substring test, via `split`; models Python's `needle in hay`. -/
def strContains (hay needle : String) : Bool := 2 ≤ (pySplit hay needle).length

/-- Whitespace recognised by Python's `str.strip()` (ASCII subset). -/
def isSpaceChar (c : Char) : Bool :=
  c = ' ' || c = '\t' || c = '\n' || c = '\x0d' || c = '\x0b' || c = '\x0c'

/-- Python's `str.strip()`. -/
def pyStrip (s : String) : String :=
  String.mk (((s.data.dropWhile isSpaceChar).reverse.dropWhile isSpaceChar).reverse)

/-- Python's slice `s[:n]`, counting code points. -/
def pySlice (n : Nat) (s : String) : String := String.mk (s.data.take n)

/-- Decimal digits of a natural number, structural in the fuel. -/
def natDigitsAux : Nat → Nat → List Char
  | 0, _ => []
  | k + 1, n =>
    if n < 10 then [Char.ofNat (48 + n)]
    else natDigitsAux k (n / 10) ++ [Char.ofNat (48 + n % 10)]

/-- Decimal rendering of a natural number, modelling Python's `str(n)`. -/
def natToStr (n : Nat) : String := String.mk (natDigitsAux (n + 1) n)

/-- Python's `int(s)` on a clean digit string: `none` models the
`ValueError` raised on a non-numeric string. -/
def parseNatStr (s : String) : Option Nat := go s.data 0 s.data.length
where
  go : List Char → Nat → Nat → Option Nat
    | [], acc, n => if n = 0 then none else some acc
    | c :: rest, acc, n =>
      if 48 ≤ c.toNat ∧ c.toNat ≤ 57 then go rest (10 * acc + (c.toNat - 48)) n else none

/-- Scheme and authority of a URL, as in `http://host`. -/
def schemeAndHost (s : String) : String :=
  match pySplit s "://" with
  | sch :: rest :: _ => sch ++ "://" ++ String.mk (rest.data.takeWhile (fun c => !(c == '/')))
  | _ => s

/-- Everything up to and including the last slash of a URL. -/
def upToLastSlash (s : String) : String :=
  String.mk ((s.data.reverse.dropWhile (fun c => !(c == '/'))).reverse)

/-- Models `urllib.parse.urljoin` for the reference shapes this program
produces: an absolute URL is kept, a root-relative reference is resolved
against the scheme and host of the base, and a relative reference is
resolved against the directory of the base. -/
def urljoin (base rel : String) : String :=
  if rel = "" then base
  else if strContains rel "://" then rel
  else if leadsWith ['/'] rel.data then schemeAndHost base ++ rel
  else upToLastSlash base ++ rel

/-- Characters stripped by the filename sanitizer. -/
def forbiddenFilenameChars : List Char := ['/', '\\', ':', '*', '?', '"', '<', '>', '|']

/-- Test for a character the sanitizer removes: the universally unsafe
punctuation plus control characters. -/
def isForbiddenFilenameChar (c : Char) : Bool :=
  forbiddenFilenameChars.contains c || decide (c.toNat < 32)

/-- Models the `pathvalidate.sanitize_filename` capability: characters
unsafe in filenames are removed. -/
def sanitize_filename (s : String) : String :=
  String.mk (s.data.filter (fun c => !(isForbiddenFilenameChar c)))

/-- Models `os.path.splitext`: split at the last dot, ignoring leading
dots, keeping the dot with the extension. -/
def splitext (s : String) : String × String :=
  let cs := s.data
  let dots := (cs.takeWhile (fun c => c == '.')).length
  let rest := cs.drop dots
  let tail := cs.reverse.takeWhile (fun c => !(c == '.'))
  if rest.contains '.' then
    (String.mk (cs.take (cs.length - tail.length - 1)),
     String.mk (cs.drop (cs.length - tail.length - 1)))
  else (s, "")

/-- Models `os.path.join` for the non-empty relative components the script
joins. -/
def pathJoin (a b : String) : String := if a = "" then b else a ++ "/" ++ b

/-! Data model of the pipeline. -/

/-- Module-level constants of the script. -/
def CATEGORY_URL : String := "http://tululu.org/l55/"

/-- Folder for downloaded texts. -/
def FOLDER_PATH : String := "books"

/-- Folder for downloaded cover images. -/
def IMAGES_PATH : String := "images"

/-- Truncation length for sanitized text filenames (the script's typo is
kept). -/
def MAX_FILENAME_LENGHT : Nat := 50

/-- Python exception kinds that the script's control flow can surface. -/
inductive PyErr where
  | connectionError
  | attributeError
  | valueError
  | indexError
  | typeError
deriving DecidableEq, Repr

/-- Log text of a caught exception, as `logger.error(error)` would emit. -/
def pyErrMsg : PyErr → String
  | .connectionError => "ConnectionError"
  | .attributeError => "AttributeError"
  | .valueError => "ValueError"
  | .indexError => "IndexError"
  | .typeError => "TypeError"

/-- An HTTP response: status, decoded text body, raw byte body and the
requested URL. -/
structure Response where
  status : Nat
  text : String
  content : List Nat
  url : String
deriving DecidableEq, Repr

/-- An HTML anchor as the selector queries see it: its `href` and its
optional `title` attribute. -/
structure Anchor where
  href : String
  titleAttr : Option String
deriving DecidableEq, Repr

/-- Results of the CSS-selector queries the script runs against one parsed
page (the BeautifulSoup capability): `h1` is the text of
`select_one('h1')`, `d_book_tr_anchors` the anchors of
`select('.d_book tr a')`, `d_book_img` the `src` of
`select_one('.d_book a img')`, `texts_black` the texts of
`select('.texts .black')`, `span_d_book` the texts of
`select('span.d_book a')`, `npage` the texts of `select('.npage')` and
`bookimage_anchors` the hrefs of `select('table.d_book div.bookimage a')`. -/
structure Soup where
  h1 : Option String
  d_book_tr_anchors : List Anchor
  d_book_img : Option String
  texts_black : List String
  span_d_book : List String
  npage : List String
  bookimage_anchors : List String
deriving DecidableEq, Repr

/-- A soup with every query empty. -/
def emptySoup : Soup := ⟨none, [], none, [], [], [], []⟩

/-- Contents of one written file: text mode or binary mode. -/
inductive FileData where
  | text (s : String)
  | binary (b : List Nat)
deriving DecidableEq, Repr

deriving instance DecidableEq for Except

/-- Result of one effectful step: the `logger.error` lines it emitted, the
files it wrote (path and data, in order), and its value or the Python
exception it raised. -/
structure Eff (α : Type) where
  logs : List String
  writes : List (String × FileData)
  result : Except PyErr α
deriving DecidableEq, Repr

/-- The record `parse_book_info` returns. -/
structure BookInfo where
  title : String
  author : String
  book_txt_url : String
  book_image_url : String
  book_image_name : String
  comments : List String
  genres : List String
deriving DecidableEq, Repr

/-- One manifest entry; `none` in `book_src` or `img_src` models the JSON
key being absent. -/
structure Description where
  title : String
  author : String
  comments : List String
  genres : List String
  book_src : Option String
  img_src : Option String
deriving DecidableEq, Repr

/-- The command-line configuration of `main`, with the page numbers as
naturals. -/
structure Args where
  start_page : Nat
  end_page : Nat
  dest_folder : String
  skip_imgs : Bool
  skip_txt : Bool
  json_path : Option String
deriving DecidableEq, Repr

/-- What the `get_book_links` generator produced before `main` consumed
it: logs, the yielded links, and the transport error that aborted the
iteration, if any. -/
structure GenResult where
  logs : List String
  links : List String
  aborted : Option PyErr
deriving DecidableEq, Repr

/-- Accumulator of the crawl loop in `main`. -/
structure CrawlAcc where
  logs : List String
  writes : List (String × FileData)
  books : List Description
deriving DecidableEq, Repr

/-- Observable outcome of a whole run: the process exit status, the error
log, the asset files written, and the manifest contents (`none` when
`description.json` was never written). -/
structure RunResult where
  exitCode : Nat
  logs : List String
  writes : List (String × FileData)
  manifest : Option (List Description)
deriving DecidableEq, Repr

/-! The pipeline, translated from `parse_tululu_category.py`. -/

/-- Lines 21 to 27 of the script.  `response.raise_for_status()` and the
explicit non-200 check raise inside a `try` whose `except` catches exactly
those exceptions and only logs them, so the function always returns
normally; a non-200 response produces one `logger.error` line and nothing
else. -/
def raise_for_status (r : Response) : List String :=
  if r.status = 200 then [] else [r.url ++ ": HTTPError"]

/-- Lines 29 to 34: `get_hash` with the default `md5` algorithm, on bytes.
String input is UTF-8 encoded by the caller, as `obj.encode()` does. -/
def get_hash (obj : List Nat) : String := md5hex obj

/-- Lines 36 to 47: `download_txt`.  The filename is sanitized and
truncated, the URL fetched without following redirects, and the text body
written to `folder/filename_hash.txt`.  A transport error (`none` from the
oracle) propagates as `ConnectionError` before anything is written; a
non-200 status is only logged by `raise_for_status`, and the body is
written anyway. -/
def download_txt (net : String → Option Response) (url filename folder : String) : Eff String :=
  let fname := pySlice MAX_FILENAME_LENGHT (sanitize_filename filename)
  match net url with
  | none => ⟨[], [], .error .connectionError⟩
  | some r =>
    let book_hash := get_hash (utf8Encode r.text)
    let path := pathJoin folder (fname ++ "_" ++ book_hash ++ ".txt")
    ⟨raise_for_status r, [(path, FileData.text r.text)], .ok path⟩

/-- Lines 49 to 61: `download_image`.  The suggested filename is split
around its extension and used verbatim, with the hash of the raw bytes
inserted before the extension; no sanitization and no truncation. -/
def download_image (net : String → Option Response) (url filename folder : String) : Eff String :=
  match net url with
  | none => ⟨[], [], .error .connectionError⟩
  | some r =>
    let img_hash := get_hash r.content
    let ne := splitext filename
    let path := pathJoin folder (ne.1 ++ "_" ++ img_hash ++ ne.2)
    ⟨raise_for_status r, [(path, FileData.binary r.content)], .ok path⟩

/-- Line 69: `soup.select('.d_book tr a')[-3]`.  Python's negative index
raises `IndexError` when fewer than three anchors exist, otherwise picks
the third anchor from the end. -/
def select_txt_anchor (anchors : List Anchor) : Except PyErr Anchor :=
  if h : 3 ≤ anchors.length then
    .ok (anchors.get ⟨anchors.length - 3, by omega⟩)
  else .error .indexError

/-- Lines 63 to 81: `parse_book_info`.  Fetch, log any bad status (without
aborting), then: a missing `h1` raises `AttributeError`; a heading whose
split on `::` does not give exactly two parts raises `ValueError` at the
unpacking; the text link is the third-from-last `.d_book tr a` anchor; a
missing cover image raises `TypeError` at the subscript.  Both URLs are
resolved against the book page's own URL. -/
def parse_book_info (net : String → Option Response) (soupOf : String → Soup)
    (url : String) : Eff BookInfo :=
  match net url with
  | none => ⟨[], [], .error .connectionError⟩
  | some r =>
    let logs := raise_for_status r
    let soup := soupOf r.text
    match soup.h1 with
    | none => ⟨logs, [], .error .attributeError⟩
    | some headText =>
      match pySplit headText "::" with
      | [t, a] =>
        match select_txt_anchor soup.d_book_tr_anchors with
        | .error e => ⟨logs, [], .error e⟩
        | .ok txtAnchor =>
          match soup.d_book_img with
          | none => ⟨logs, [], .error .typeError⟩
          | some imgSrc =>
            ⟨logs, [], .ok
              { title := pyStrip t
                author := pyStrip a
                book_txt_url := urljoin url txtAnchor.href
                book_image_url := urljoin url imgSrc
                book_image_name := (pySplit imgSrc "/").getLastD ""
                comments := soup.texts_black
                genres := soup.span_d_book }⟩
      | _ => ⟨logs, [], .error .valueError⟩

/-- Lines 83 to 88: `get_total_pages` reads the last `.npage` element of
the category root and parses it as an integer. -/
def get_total_pages (net : String → Option Response) (soupOf : String → Soup)
    (url : String := CATEGORY_URL) : Eff Nat :=
  match net url with
  | none => ⟨[], [], .error .connectionError⟩
  | some r =>
    let logs := raise_for_status r
    match ((soupOf r.text).npage).getLast? with
    | none => ⟨logs, [], .error .indexError⟩
    | some t =>
      match parseNatStr t with
      | none => ⟨logs, [], .error .valueError⟩
      | some n => ⟨logs, [], .ok n⟩

/-- Worker for `get_book_links`, structural in the number of remaining
pages.  A transport error while fetching a category page aborts the
generator (it is raised at the `for` statement of `main`, outside the
per-book `try`); a bad status is only logged and the page's soup is still
queried. -/
def get_book_links_aux (net : String → Option Response) (soupOf : String → Soup)
    (url : String) : Nat → Nat → GenResult
  | _, 0 => ⟨[], [], none⟩
  | s, k + 1 =>
    match net (urljoin url (natToStr s)) with
    | none => ⟨[], [], some .connectionError⟩
    | some r =>
      let rest := get_book_links_aux net soupOf url (s + 1) k
      ⟨raise_for_status r ++ rest.logs,
       ((soupOf r.text).bookimage_anchors.map (urljoin url)) ++ rest.links,
       rest.aborted⟩

/-- Lines 90 to 99: `get_book_links` visits pages `start_page` to
`end_page - 1` (the half-open `range`), and yields every book-cover
anchor's href resolved against the category root, in order. -/
def get_book_links (net : String → Option Response) (soupOf : String → Soup)
    (start_page end_page : Nat) (url : String := CATEGORY_URL) : GenResult :=
  get_book_links_aux net soupOf url start_page (end_page - start_page)

/-- Text-download stage of the loop body (lines 158 to 160). -/
def txtStage (net : String → Option Response) (args : Args) (txt_path : String)
    (info : BookInfo) (logs : List String) (d : Description) : Eff Description :=
  if args.skip_txt then ⟨logs, [], .ok d⟩
  else
    let r := download_txt net info.book_txt_url info.title txt_path
    match r.result with
    | .error e => ⟨logs ++ r.logs, r.writes, .error e⟩
    | .ok p => ⟨logs ++ r.logs, r.writes, .ok { d with book_src := some p }⟩

/-- Image-download stage of the loop body (lines 162 to 164); it runs after
the text stage, so on its failure the text file already written stays on
disk while the book's description is dropped. -/
def imageStage (net : String → Option Response) (args : Args) (img_path : String)
    (info : BookInfo) (eff : Eff Description) : Eff Description :=
  match eff.result with
  | .error _ => eff
  | .ok d =>
    if args.skip_imgs then eff
    else
      let r := download_image net info.book_image_url info.book_image_name img_path
      match r.result with
      | .error e => ⟨eff.logs ++ r.logs, eff.writes ++ r.writes, .error e⟩
      | .ok p => ⟨eff.logs ++ r.logs, eff.writes ++ r.writes, .ok { d with img_src := some p }⟩

/-- Body of the crawl loop for one link (lines 144 to 166): extract, then
conditionally download text and image, building the description record. -/
def processBook (net : String → Option Response) (soupOf : String → Soup) (args : Args)
    (txt_path img_path : String) (link : String) : Eff Description :=
  let pe := parse_book_info net soupOf link
  match pe.result with
  | .error e => ⟨pe.logs, [], .error e⟩
  | .ok info =>
    imageStage net args img_path info
      (txtStage net args txt_path info pe.logs
        ⟨info.title, info.author, info.comments, info.genres, none, none⟩)

/-- One iteration of `for book_link in book_links` with its `try`/`except`
(lines 143 to 168): an exception from the body is caught and logged and
the loop continues; a successful description is appended. -/
def crawlStep (net : String → Option Response) (soupOf : String → Soup) (args : Args)
    (txt_path img_path : String) (acc : CrawlAcc) (link : String) : CrawlAcc :=
  let step := processBook net soupOf args txt_path img_path link
  match step.result with
  | .ok d => ⟨acc.logs ++ step.logs, acc.writes ++ step.writes, acc.books ++ [d]⟩
  | .error e => ⟨acc.logs ++ step.logs ++ [pyErrMsg e], acc.writes ++ step.writes, acc.books⟩

/-- Log line of the argument-range check (line 123). -/
def rangeErrorLog : String := "Error in arguments --start_page and --end_page"

/-- Lines 111 to 173: `main`.  Resolve `total_pages`, clamp `end_page`,
and on `end_page < start_page` log an error and `return` — the process
then exits with status 0 and nothing has been written.  Otherwise crawl
every yielded link, never letting one book's failure abort the run, and
finally write the manifest once.  An uncaught exception (resolving the
total, or a transport error on a category page, raised outside the
per-book `try`) terminates the interpreter with a non-zero status and the
manifest is never written. -/
def main (net : String → Option Response) (soupOf : String → Soup) (args : Args) : RunResult :=
  let tp := get_total_pages net soupOf
  match tp.result with
  | .error e => ⟨1, tp.logs ++ [pyErrMsg e], [], none⟩
  | .ok total_pages =>
    let end_page := min args.end_page total_pages
    if end_page < args.start_page then
      ⟨0, tp.logs ++ [rangeErrorLog], [], none⟩
    else
      let txt_path := pathJoin args.dest_folder FOLDER_PATH
      let img_path := pathJoin args.dest_folder IMAGES_PATH
      let gen := get_book_links net soupOf args.start_page end_page
      let acc := gen.links.foldl (crawlStep net soupOf args txt_path img_path)
        ⟨tp.logs ++ gen.logs, [], []⟩
      match gen.aborted with
      | some e => ⟨1, acc.logs ++ [pyErrMsg e], acc.writes, none⟩
      | none => ⟨0, acc.logs, acc.writes, some acc.books⟩

/-- Modelled from the spec: the two-strategy fallback chain it prescribes
for locating the text-download link — first the anchor whose `title`
attribute contains the substring `download book txt`, and only failing
that, the third-from-last anchor of the table-like content block.  The
script itself implements only the second strategy (`select_txt_anchor`);
this definition exists to compare the spec's words with the code. -/
def spec_fallback_txt_link (anchors : List Anchor) : Option Anchor :=
  match anchors.find? (fun a => strContains (a.titleAttr.getD "") "download book txt") with
  | some a => some a
  | none =>
    if h : 3 ≤ anchors.length then some (anchors.get ⟨anchors.length - 3, by omega⟩)
    else none

/-! Concrete oracles used to evaluate the pipeline at specific inputs. -/

/-- Book-page soup with a well-formed heading, three content anchors and a
cover image. -/
def c1BookSoupA : Soup :=
  ⟨some "First :: Author One", [⟨"/dl/1.txt", none⟩, ⟨"/x", none⟩, ⟨"/y", none⟩],
   some "/img/c1.jpg", [], [], [], []⟩

/-- Second well-formed book-page soup. -/
def c1BookSoupB : Soup :=
  ⟨some "Second :: Author Two", [⟨"/dl/2.txt", none⟩, ⟨"/x", none⟩, ⟨"/y", none⟩],
   some "/img/c2.jpg", [], [], [], []⟩

/-- Category-root soup whose pagination control shows 2 pages. -/
def c1CatSoup : Soup := ⟨none, [], none, [], [], ["2"], []⟩

/-- Category listing page with two book-cover anchors. -/
def c1PageSoup : Soup := ⟨none, [], none, [], [], [], ["/b1/", "/b2/"]⟩

/-- Network oracle for a two-book crawl in which the first book's detail
page answers with HTTP status 500 while its body still parses; every
download URL answers 200. -/
def c1Net : String → Option Response := fun u =>
  if u = CATEGORY_URL then some ⟨200, "cat", [], u⟩
  else if u = "http://tululu.org/l55/1" then some ⟨200, "page1", [], u⟩
  else if u = "http://tululu.org/b1/" then some ⟨500, "bookone", [], u⟩
  else if u = "http://tululu.org/b2/" then some ⟨200, "booktwo", [], u⟩
  else if u = "http://tululu.org/dl/1.txt" then some ⟨200, "one", [], u⟩
  else if u = "http://tululu.org/dl/2.txt" then some ⟨200, "two", [], u⟩
  else if u = "http://tululu.org/img/c1.jpg" then some ⟨200, "", [1], u⟩
  else if u = "http://tululu.org/img/c2.jpg" then some ⟨200, "", [2], u⟩
  else none

/-- Parse oracle matching `c1Net`. -/
def c1Soup : String → Soup := fun t =>
  if t = "cat" then c1CatSoup
  else if t = "page1" then c1PageSoup
  else if t = "bookone" then c1BookSoupA
  else if t = "booktwo" then c1BookSoupB
  else emptySoup

/-- Arguments crawling pages 1 to 2 with nothing skipped. -/
def c1Args : Args := ⟨1, 2, ".", false, false, none⟩

/-- Network oracle with two category listing pages. -/
def c2Net : String → Option Response := fun u =>
  if u = "http://tululu.org/l55/1" then some ⟨200, "pageone", [], u⟩
  else if u = "http://tululu.org/l55/2" then some ⟨200, "pagetwo", [], u⟩
  else none

/-- Parse oracle for `c2Net`: page one links two books, page two repeats
the first link. -/
def c2SoupOf : String → Soup := fun t =>
  if t = "pageone" then ⟨none, [], none, [], [], [], ["/b1/", "/b2/"]⟩
  else if t = "pagetwo" then ⟨none, [], none, [], [], [], ["/b1/"]⟩
  else emptySoup

/-- Responses of `c2Net` indexed by page number. -/
def c2Resp : Nat → Response := fun p =>
  if p = 1 then ⟨200, "pageone", [], "http://tululu.org/l55/1"⟩
  else ⟨200, "pagetwo", [], "http://tululu.org/l55/2"⟩

/-- First message of the classic Wang MD5 collision pair (128 bytes, hex). -/
def collisionHexA : String :=
  "d131dd02c5e6eec4693d9a0698aff95c2fcab58712467eab4004583eb8fb7f8955ad340609f4b30283e488832571415a085125e8f7cdc99fd91dbdf280373c5bd8823e3156348f5bae6dacd436c919c6dd53e2b487da03fd02396306d248cda0e99f33420f577ee8ce54b67080a80d1ec69821bcb6a8839396f9652b6ff72a70"

/-- Second message of the collision pair: it differs from the first in six
bytes yet has the same MD5 digest. -/
def collisionHexB : String :=
  "d131dd02c5e6eec4693d9a0698aff95c2fcab50712467eab4004583eb8fb7f8955ad340609f4b30283e4888325f1415a085125e8f7cdc99fd91dbd7280373c5bd8823e3156348f5bae6dacd436c919c6dd53e23487da03fd02396306d248cda0e99f33420f577ee8ce54b67080280d1ec69821bcb6a8839396f965ab6ff72a70"

/-- Network oracle serving the two colliding byte bodies at two image
URLs. -/
def c3Net : String → Option Response := fun u =>
  if u = "http://tululu.org/shots/1.jpg" then some ⟨200, "", hexToBytes collisionHexA, u⟩
  else if u = "http://tululu.org/shots/2.jpg" then some ⟨200, "", hexToBytes collisionHexB, u⟩
  else none

/-- Network oracle for the hash-naming witness: four text bodies and two
image bodies at distinct URLs. -/
def c3wNet : String → Option Response := fun u =>
  if u = "http://a/1" then some ⟨200, "samecontent", [], u⟩
  else if u = "http://a/2" then some ⟨200, "samecontent", [], u⟩
  else if u = "http://a/3" then some ⟨200, "othercontent", [], u⟩
  else if u = "http://a/4" then some ⟨200, "", [0], u⟩
  else if u = "http://a/5" then some ⟨200, "", [1], u⟩
  else none

/-- Network oracle answering only the category root. -/
def c4Net : String → Option Response := fun u =>
  if u = CATEGORY_URL then some ⟨200, "cat", [], u⟩ else none

/-- Parse oracle for `c4Net`: the pagination control shows 5 pages. -/
def c4SoupOf : String → Soup := fun t =>
  if t = "cat" then ⟨none, [], none, [], [], ["5"], []⟩ else emptySoup

/-- Arguments whose clamped range is empty: pages 3 to 2. -/
def c4Args : Args := ⟨3, 2, ".", false, false, none⟩

/-- Network oracle with one well-formed book page and one book page whose
heading has no separator. -/
def c5Net : String → Option Response := fun u =>
  if u = "http://tululu.org/b9/" then some ⟨200, "bk9", [], u⟩
  else if u = "http://tululu.org/b8/" then some ⟨200, "bk8", [], u⟩
  else none

/-- Parse oracle for `c5Net`. -/
def c5SoupOf : String → Soup := fun t =>
  if t = "bk9" then
    ⟨some "Title Here  ::  Author Name",
     [⟨"/dl/9.txt", none⟩, ⟨"/x", none⟩, ⟨"/y", none⟩], some "/img/c9.jpg", [], [], [], []⟩
  else if t = "bk8" then
    ⟨some "No Separator Heading",
     [⟨"/dl/8.txt", none⟩, ⟨"/x", none⟩, ⟨"/y", none⟩], some "/img/c8.jpg", [], [], [], []⟩
  else emptySoup

/-- Anchor list on which the spec's fallback chain and the code's
positional selection pick different anchors: the anchor titled with the
download phrase is first, not third from last. -/
def c6Anchors : List Anchor :=
  [⟨"/txt/phrase", some "download book txt"⟩, ⟨"/other/a", none⟩,
   ⟨"/other/b", none⟩, ⟨"/other/c", none⟩]

/-- Network oracle serving one image whose suggested filename contains a
forbidden character. -/
def c7Net : String → Option Response := fun u =>
  if u = "http://tululu.org/images/x.jpg" then some ⟨200, "", [9, 9], u⟩ else none

/-- Network oracle for the naming-policy witness. -/
def c7wNet : String → Option Response := fun u =>
  if u = "http://a/7" then some ⟨200, "bodytext", [3, 4], u⟩ else none

/-- Network oracle whose only URL answers with a 302 redirect status and
the short body of the redirect page. -/
def c8Net : String → Option Response := fun u =>
  if u = "http://tululu.org/txt.php?id=55" then some ⟨302, "Moved", [], u⟩ else none

/-- Network oracle with a book page whose heading splits into three
parts. -/
def c9Net : String → Option Response := fun u =>
  if u = "http://tululu.org/b7/" then some ⟨200, "bk7", [], u⟩ else none

/-- Parse oracle for `c9Net`. -/
def c9SoupOf : String → Soup := fun t =>
  if t = "bk7" then
    ⟨some "A :: B :: C", [⟨"/dl/7.txt", none⟩, ⟨"/x", none⟩, ⟨"/y", none⟩],
     some "/img/c7.jpg", [], [], [], []⟩
  else emptySoup

/-- Network oracle for the partial-write witness: the book page and its
text URL answer, the image URL raises a transport error. -/
def c10Net : String → Option Response := fun u =>
  if u = "http://tululu.org/b5/" then some ⟨200, "bk5", [], u⟩
  else if u = "http://tululu.org/dl/5.txt" then some ⟨200, "five", [], u⟩
  else none

/-- Parse oracle for `c10Net`. -/
def c10SoupOf : String → Soup := fun t =>
  if t = "bk5" then
    ⟨some "Five :: Author Five", [⟨"/dl/5.txt", none⟩, ⟨"/x", none⟩, ⟨"/y", none⟩],
     some "/img/c5.jpg", [], [], [], []⟩
  else emptySoup

/-- The record `parse_book_info` extracts from the `c10Net` book page. -/
def c10Info : BookInfo :=
  ⟨"Five", "Author Five", "http://tululu.org/dl/5.txt", "http://tululu.org/img/c5.jpg",
   "c5.jpg", [], []⟩

/-- First manifest entry of the `c1Net` run. -/
def c10Book : Description :=
  ((main c1Net c1Soup c1Args).manifest.getD []).headD ⟨"", "", [], [], none, none⟩

/-! Helper lemmas. -/

/-- Characterization of the category-page worker when every visited page
answers without a transport error. -/
theorem get_book_links_aux_spec (net : String → Option Response) (soupOf : String → Soup)
    (url : String) (resp : Nat → Response) :
    ∀ (k s : Nat),
      (∀ p, s ≤ p → p < s + k → net (urljoin url (natToStr p)) = some (resp p)) →
      get_book_links_aux net soupOf url s k =
        ⟨(List.range' s k).flatMap (fun p => raise_for_status (resp p)),
         (List.range' s k).flatMap
           (fun p => ((soupOf (resp p).text).bookimage_anchors).map (urljoin url)),
         none⟩ := by
  intro k
  induction k with
  | zero => intro s h; rfl
  | succ n ih =>
    intro s h
    have hs : net (urljoin url (natToStr s)) = some (resp s) := h s (Nat.le_refl s) (by omega)
    have hrest := ih (s + 1) (fun p hp1 hp2 => h p (by omega) (by omega))
    unfold get_book_links_aux
    rw [hs, hrest]
    simp [List.range'_succ]

/-- Strings with equal character lists are equal. -/
theorem str_data_inj {s t : String} (h : s.data = t.data) : s = t := by
  cases s; cases t; exact congrArg String.mk h

/-- Character list of an appended string. -/
theorem str_data_append (a b : String) : (a ++ b).data = a.data ++ b.data := rfl

/-- Equal strings framed by a common prefix and suffix have equal middles. -/
theorem affix_inj (pre suf x y : String) (h : pre ++ x ++ suf = pre ++ y ++ suf) : x = y := by
  apply str_data_inj
  have hd : pre.data ++ x.data ++ suf.data = pre.data ++ y.data ++ suf.data := by
    have := congrArg String.data h
    simpa [str_data_append] using this
  exact List.append_cancel_left (List.append_cancel_right hd)

/-- Joining the same folder with two names gives equal paths only for equal
names. -/
theorem pathJoin_right_inj (a x y : String) (h : pathJoin a x = pathJoin a y) : x = y := by
  unfold pathJoin at h
  by_cases ha : a = ""
  · rwa [if_pos ha, if_pos ha] at h
  · rw [if_neg ha, if_neg ha] at h
    apply str_data_inj
    have := congrArg String.data h
    simp only [str_data_append] at this
    rw [List.append_assoc, List.append_assoc] at this
    exact List.append_cancel_left (List.append_cancel_left this)

/-- A successful text stage keeps the image path and, when texts are not
skipped, records a text path. -/
theorem txtStage_ok_srcs (net : String → Option Response) (args : Args) (txt_path : String)
    (info : BookInfo) (logs : List String) (d0 d1 : Description)
    (h : (txtStage net args txt_path info logs d0).result = Except.ok d1) :
    d1.img_src = d0.img_src ∧ (args.skip_txt = false → d1.book_src.isSome = true) := by
  simp only [txtStage] at h
  split at h
  case isTrue hskip =>
    simp at h
    subst h
    exact ⟨rfl, fun hf => by simp [hskip] at hf⟩
  case isFalse hskip =>
    split at h
    · simp at h
    case h_2 p hdl =>
      simp at h
      subst h
      exact ⟨rfl, fun _ => rfl⟩

/-- A successful image stage passes a successful earlier stage through,
keeps its text path and, when images are not skipped, records an image
path. -/
theorem imageStage_ok_srcs (net : String → Option Response) (args : Args) (img_path : String)
    (info : BookInfo) (eff : Eff Description) (d : Description)
    (h : (imageStage net args img_path info eff).result = Except.ok d) :
    ∃ d0, eff.result = Except.ok d0 ∧ d.book_src = d0.book_src ∧
      (args.skip_imgs = false → d.img_src.isSome = true) := by
  simp only [imageStage] at h
  split at h
  case h_1 e heff =>
    rw [heff] at h
    cases h
  case h_2 d0 heff =>
    split at h
    case isTrue hskip =>
      rw [heff] at h
      simp at h
      subst h
      exact ⟨d0, heff, rfl, fun hf => by simp [hskip] at hf⟩
    case isFalse hskip =>
      split at h
      · simp at h
      case h_2 p hdl =>
        simp at h
        subst h
        exact ⟨d0, heff, rfl, fun _ => rfl⟩

/-- A book that reaches the manifest carries every non-skipped asset
path. -/
theorem processBook_ok_srcs (net : String → Option Response) (soupOf : String → Soup)
    (args : Args) (txt_path img_path link : String) (d : Description)
    (h : (processBook net soupOf args txt_path img_path link).result = Except.ok d) :
    (args.skip_txt = false → d.book_src.isSome = true) ∧
    (args.skip_imgs = false → d.img_src.isSome = true) := by
  simp only [processBook] at h
  split at h
  · simp at h
  case h_2 info hpe =>
    obtain ⟨d0, hd0, hbook, himg⟩ := imageStage_ok_srcs _ _ _ _ _ _ h
    obtain ⟨_, hbooksrc⟩ := txtStage_ok_srcs _ _ _ _ _ _ _ hd0
    exact ⟨fun hf => by rw [hbook]; exact hbooksrc hf, himg⟩

/-- A predicate holding for every description a successful loop body can
produce holds for every book the crawl fold accumulates. -/
theorem crawl_books_pred (net : String → Option Response) (soupOf : String → Soup)
    (args : Args) (txt_path img_path : String) (P : Description → Prop)
    (hP : ∀ link d,
      (processBook net soupOf args txt_path img_path link).result = Except.ok d → P d) :
    ∀ (links : List String) (acc : CrawlAcc),
      (∀ d ∈ acc.books, P d) →
      ∀ d ∈ (links.foldl (crawlStep net soupOf args txt_path img_path) acc).books, P d := by
  intro links
  induction links with
  | nil => intro acc hacc; simpa using hacc
  | cons l ls ih =>
    intro acc hacc
    rw [List.foldl_cons]
    apply ih
    intro d hd
    simp only [crawlStep] at hd
    split at hd
    case h_1 d0 hres =>
      have hd2 : d ∈ acc.books ∨ d = d0 := by simpa using hd
      rcases hd2 with hmem | hmem
      · exact hacc d hmem
      · subst hmem
        exact hP l d hres
    case h_2 e hres =>
      exact hacc d (by simpa using hd)

/-! The claims. -/

/-- C1: the claim says a book whose detail-page fetch returns a non-200
status never appears in the manifest.  The code disagrees:
`raise_for_status` catches the very `HTTPError` it raises and only logs
it, so `parse_book_info` goes on to parse the non-200 body; here a crawl
in which the first book's page answers 500 with a parseable body puts both
books in the manifest, downloads both books' files, finishes with exit
status 0, and the non-200 status leaves only a log line. -/
theorem c1_non200_book_reaches_manifest :
    (c1Net "http://tululu.org/b1/").map Response.status = some 500 ∧
    ((main c1Net c1Soup c1Args).manifest.getD []).map Description.title =
      ["First", "Second"] ∧
    ((main c1Net c1Soup c1Args).manifest.getD []).map
      (fun d => d.book_src.isSome && d.img_src.isSome) = [true, true] ∧
    (main c1Net c1Soup c1Args).exitCode = 0 ∧
    (main c1Net c1Soup c1Args).logs = ["http://tululu.org/b1/: HTTPError"] := by decide

/-- C2: for any page range, the Category Walker yields exactly the
concatenation, over pages `start_page` to `end_page - 1` (the half-open
range, so `end_page` itself is never visited), of each page's book-cover
anchor hrefs resolved against the category root, in page order then
document order, with no deduplication — the yield equals the literal
`flatMap` of the per-page link lists, and the iteration is not aborted. -/
theorem c2_category_walker (net : String → Option Response) (soupOf : String → Soup)
    (resp : Nat → Response) (start_page end_page : Nat)
    (hnet : ∀ p, start_page ≤ p → p < end_page →
      net (urljoin CATEGORY_URL (natToStr p)) = some (resp p)) :
    (get_book_links net soupOf start_page end_page).links =
      (List.range' start_page (end_page - start_page)).flatMap
        (fun p => ((soupOf (resp p).text).bookimage_anchors).map (urljoin CATEGORY_URL)) ∧
    (get_book_links net soupOf start_page end_page).aborted = none := by
  have h := get_book_links_aux_spec net soupOf CATEGORY_URL resp (end_page - start_page)
    start_page (fun p hp1 hp2 => hnet p hp1 (by omega))
  unfold get_book_links
  rw [h]
  exact ⟨rfl, rfl⟩

/-- Witness for C2: walking pages 1 to 2 of a concrete two-page category
yields the three links in page then document order, the duplicate link of
page 2 not filtered. -/
theorem c2_witness :
    (get_book_links c2Net c2SoupOf 1 3).links =
      ["http://tululu.org/b1/", "http://tululu.org/b2/", "http://tululu.org/b1/"] :=
  Eq.trans
    ((c2_category_walker c2Net c2SoupOf c2Resp 1 3
      (by intro p h1 h2; interval_cases p <;> rfl)).1)
    (by decide)

/-- Counterexample to C3: the claim promises two different byte contents
with identically-sanitizing names two distinct stored paths, but the
naming hash is MD5: the two messages of the classic Wang collision differ
as bytes yet `download_image` derives the same stored path for both, so
the second download overwrites the first with different content. -/
theorem c3_counterexample :
    hexToBytes collisionHexA ≠ hexToBytes collisionHexB ∧
    sanitize_filename "cover.jpg" = sanitize_filename "cover.jpg" ∧
    (download_image c3Net "http://tululu.org/shots/1.jpg" "cover.jpg" "images").result =
      (download_image c3Net "http://tululu.org/shots/2.jpg" "cover.jpg" "images").result ∧
    (download_image c3Net "http://tululu.org/shots/1.jpg" "cover.jpg" "images").writes.map
      Prod.snd ≠
      (download_image c3Net "http://tululu.org/shots/2.jpg" "cover.jpg" "images").writes.map
      Prod.snd := by decide

/-- C3 as amended: under the hash-suffixed naming policy, downloading
content with the same text twice — even from different URLs — writes the
same bytes at the same derived path (idempotent), and two downloads whose
suggested names sanitize identically get distinct stored paths whenever
their MD5 digests differ; only MD5-colliding contents (see the
counterexample) share a path. -/
theorem c3_hash_naming :
    (∀ (net net2 : String → Option Response) (u u2 nm folder : String) (r r2 : Response),
       net u = some r → net2 u2 = some r2 → r.text = r2.text →
       (download_txt net u nm folder).writes = (download_txt net2 u2 nm folder).writes ∧
       (download_txt net u nm folder).result = (download_txt net2 u2 nm folder).result) ∧
    (∀ (net net2 : String → Option Response) (u u2 nm nm2 folder : String) (r r2 : Response),
       net u = some r → net2 u2 = some r2 →
       sanitize_filename nm = sanitize_filename nm2 →
       md5hex (utf8Encode r.text) ≠ md5hex (utf8Encode r2.text) →
       (download_txt net u nm folder).result ≠ (download_txt net2 u2 nm2 folder).result) ∧
    (∀ (net net2 : String → Option Response) (u u2 nm folder : String) (r r2 : Response),
       net u = some r → net2 u2 = some r2 →
       md5hex r.content ≠ md5hex r2.content →
       (download_image net u nm folder).result ≠ (download_image net2 u2 nm folder).result) := by
  refine ⟨?_, ?_, ?_⟩
  · intro net net2 u u2 nm folder r r2 h1 h2 htext
    simp [download_txt, h1, h2, htext]
  · intro net net2 u u2 nm nm2 folder r r2 h1 h2 hsan hmd5 heq
    simp only [download_txt, h1, h2] at heq
    have hp := Except.ok.inj heq
    have hp2 := pathJoin_right_inj _ _ _ hp
    rw [hsan] at hp2
    exact hmd5 (affix_inj _ _ _ _ hp2)
  · intro net net2 u u2 nm folder r r2 h1 h2 hmd5 heq
    simp only [download_image, h1, h2] at heq
    have hp := Except.ok.inj heq
    have hp2 := pathJoin_right_inj _ _ _ hp
    exact hmd5 (affix_inj _ _ _ _ hp2)

/-- Witness for C3: same text from two URLs gives identical writes; texts
with different digests under name collision, and images with different
digests, give distinct paths. -/
theorem c3_hash_naming_witness :
    (download_txt c3wNet "http://a/1" "Book" "books").writes =
      (download_txt c3wNet "http://a/2" "Book" "books").writes ∧
    (download_txt c3wNet "http://a/1" "Book" "books").result ≠
      (download_txt c3wNet "http://a/3" "Bo:ok" "books").result ∧
    (download_image c3wNet "http://a/4" "c.jpg" "images").result ≠
      (download_image c3wNet "http://a/5" "c.jpg" "images").result :=
  ⟨(c3_hash_naming.1 c3wNet c3wNet "http://a/1" "http://a/2" "Book" "books"
      ⟨200, "samecontent", [], "http://a/1"⟩ ⟨200, "samecontent", [], "http://a/2"⟩
      rfl rfl rfl).1,
   c3_hash_naming.2.1 c3wNet c3wNet "http://a/1" "http://a/3" "Book" "Bo:ok" "books"
      ⟨200, "samecontent", [], "http://a/1"⟩ ⟨200, "othercontent", [], "http://a/3"⟩
      rfl rfl (by decide) (by decide),
   c3_hash_naming.2.2 c3wNet c3wNet "http://a/4" "http://a/5" "c.jpg" "images"
      ⟨200, "", [0], "http://a/4"⟩ ⟨200, "", [1], "http://a/5"⟩
      rfl rfl (by decide)⟩

/-- Counterexample to C4: with the total resolved to 5 pages and the
requested range 3 to 2, the clamped `end_page` is below `start_page`, and
the run indeed writes no files and no manifest — but it terminates with
exit status 0, not the non-zero status the claim requires, because `main`
merely logs and returns. -/
theorem c4_counterexample :
    (get_total_pages c4Net c4SoupOf).result = Except.ok 5 ∧
    min c4Args.end_page 5 < c4Args.start_page ∧
    (main c4Net c4SoupOf c4Args).exitCode = 0 ∧
    (main c4Net c4SoupOf c4Args).writes = [] ∧
    (main c4Net c4SoupOf c4Args).manifest = none := by decide

/-- C4 as amended: whenever the total resolves and the clamped `end_page`
is below `start_page`, the pipeline logs the range error before any
crawling, writes no asset files and no manifest, and returns normally with
exit status 0 (there is no `sys.exit`, so the claimed non-zero status does
not occur). -/
theorem c4_range_error_behavior (net : String → Option Response) (soupOf : String → Soup)
    (args : Args) (logs : List String) (total : Nat)
    (h1 : get_total_pages net soupOf = ⟨logs, [], Except.ok total⟩)
    (h2 : min args.end_page total < args.start_page) :
    main net soupOf args = ⟨0, logs ++ [rangeErrorLog], [], none⟩ := by
  simp only [main, h1]
  rw [if_pos h2]

/-- Witness for C4: the amended behavior at the concrete empty range. -/
theorem c4_range_error_witness :
    main c4Net c4SoupOf c4Args = ⟨0, [rangeErrorLog], [], none⟩ :=
  Eq.trans (c4_range_error_behavior c4Net c4SoupOf c4Args [] 5 (by decide) (by decide))
    (by decide)

/-- C5: a heading `Title Here  ::  Author Name` extracts to the trimmed
title and author (on a page with a text anchor and a cover image), and a
heading with no `::` separator makes extraction fail with the unpacking
`ValueError`, the loop body then writing no file for that book. -/
theorem c5_heading_extraction :
    (∀ (net : String → Option Response) (soupOf : String → Soup) (link : String)
       (r : Response) (imgSrc : String),
       net link = some r →
       (soupOf r.text).h1 = some "Title Here  ::  Author Name" →
       3 ≤ (soupOf r.text).d_book_tr_anchors.length →
       (soupOf r.text).d_book_img = some imgSrc →
       (parse_book_info net soupOf link).result.map BookInfo.title = Except.ok "Title Here" ∧
       (parse_book_info net soupOf link).result.map BookInfo.author = Except.ok "Author Name") ∧
    (∀ (net : String → Option Response) (soupOf : String → Soup) (args : Args)
       (txt_path img_path link : String) (r : Response) (headText : String),
       net link = some r →
       (soupOf r.text).h1 = some headText →
       strContains headText "::" = false →
       (parse_book_info net soupOf link).result = Except.error PyErr.valueError ∧
       (processBook net soupOf args txt_path img_path link).writes = []) := by
  constructor
  · intro net soupOf link r imgSrc hnet hh1 hlen himg
    have hsplit : pySplit "Title Here  ::  Author Name" "::" =
        ["Title Here  ", "  Author Name"] := by decide
    simp only [parse_book_info, hnet, hh1, hsplit, select_txt_anchor, dif_pos hlen, himg]
    constructor
    · dsimp only [Except.map]
      decide
    · dsimp only [Except.map]
      decide
  · intro net soupOf args txt_path img_path link r headText hnet hh1 hcont
    have herr : (parse_book_info net soupOf link).result = Except.error PyErr.valueError := by
      rcases hs : pySplit headText "::" with _ | ⟨x, _ | ⟨y, rest⟩⟩
      · simp only [parse_book_info, hnet, hh1, hs]
      · simp only [parse_book_info, hnet, hh1, hs]
      · exfalso
        have : strContains headText "::" = true := by
          unfold strContains
          rw [hs]
          simp
        rw [hcont] at this
        exact Bool.false_ne_true this
    exact ⟨herr, by simp only [processBook, herr]⟩

/-- Witness for C5: the concrete well-formed and separator-less pages. -/
theorem c5_heading_witness :
    (parse_book_info c5Net c5SoupOf "http://tululu.org/b9/").result.map BookInfo.title =
      Except.ok "Title Here" ∧
    (parse_book_info c5Net c5SoupOf "http://tululu.org/b9/").result.map BookInfo.author =
      Except.ok "Author Name" ∧
    (parse_book_info c5Net c5SoupOf "http://tululu.org/b8/").result =
      Except.error PyErr.valueError ∧
    (processBook c5Net c5SoupOf c1Args "books" "images" "http://tululu.org/b8/").writes = [] :=
  ⟨(c5_heading_extraction.1 c5Net c5SoupOf "http://tululu.org/b9/"
      ⟨200, "bk9", [], "http://tululu.org/b9/"⟩ "/img/c9.jpg" rfl (by decide) (by decide)
      (by decide)).1,
   (c5_heading_extraction.1 c5Net c5SoupOf "http://tululu.org/b9/"
      ⟨200, "bk9", [], "http://tululu.org/b9/"⟩ "/img/c9.jpg" rfl (by decide) (by decide)
      (by decide)).2,
   (c5_heading_extraction.2 c5Net c5SoupOf c1Args "books" "images" "http://tululu.org/b8/"
      ⟨200, "bk8", [], "http://tululu.org/b8/"⟩ "No Separator Heading" rfl (by decide)
      (by decide)).1,
   (c5_heading_extraction.2 c5Net c5SoupOf c1Args "books" "images" "http://tululu.org/b8/"
      ⟨200, "bk8", [], "http://tululu.org/b8/"⟩ "No Separator Heading" rfl (by decide)
      (by decide)).2⟩

/-- Counterexample to C6: the claim describes a two-strategy fallback
chain starting with the anchor titled by the download phrase; on an anchor
list whose titled anchor is not third from last, the code's selection and
the spec's chain pick different anchors. -/
theorem c6_counterexample :
    (select_txt_anchor c6Anchors).toOption ≠ spec_fallback_txt_link c6Anchors := by decide

/-- C6 as amended: the Page Extractor locates the text-download link by
position alone — always the third-from-last anchor of the table-like
content block — and never consults any title attribute: retitling every
anchor arbitrarily still selects the anchor at that position, with the
rewritten title. -/
theorem c6_position_only_selection (anchors : List Anchor) (f : Anchor → Option String)
    (h : 3 ≤ anchors.length) :
    select_txt_anchor (anchors.map (fun a => ⟨a.href, f a⟩)) =
      Except.ok ⟨(anchors.get ⟨anchors.length - 3, by omega⟩).href,
        f (anchors.get ⟨anchors.length - 3, by omega⟩)⟩ := by
  simp only [select_txt_anchor, List.length_map, List.get_eq_getElem, List.getElem_map]
  rw [dif_pos h]

/-- Witness for C6: on the concrete list the selection is the second of
four anchors, not the titled first one. -/
theorem c6_position_only_witness :
    select_txt_anchor (c6Anchors.map (fun a => ⟨a.href, a.titleAttr⟩)) =
      Except.ok ⟨"/other/a", none⟩ :=
  Eq.trans (c6_position_only_selection c6Anchors (fun a => a.titleAttr) (by decide)) (by decide)

/-- Counterexample to C7: the claim says every download's suggested
filename is sanitized; but `download_image` sanitizes nothing, so an image
filename containing `<` — a character the sanitizer strips — reaches the
stored path verbatim. -/
theorem c7_counterexample :
    isForbiddenFilenameChar '<' = true ∧
    sanitize_filename "a<b.jpg" = "ab.jpg" ∧
    '<' ∈ ((download_image c7Net "http://tululu.org/images/x.jpg" "a<b.jpg"
      "images").result.toOption.getD "").data := by decide

/-- C7 as amended: only text downloads sanitize and truncate — the stored
text path is the sanitized suggested name cut to 50 characters plus the
content hash, and no forbidden character survives in that name part —
while image downloads use the suggested filename verbatim, split around
its extension with the hash inserted, with no sanitization and no
truncation. -/
theorem c7_naming_policy :
    (∀ (net : String → Option Response) (url nm folder : String) (r : Response),
       net url = some r →
       (download_txt net url nm folder).result =
         Except.ok (pathJoin folder (pySlice MAX_FILENAME_LENGHT (sanitize_filename nm) ++ "_" ++
           get_hash (utf8Encode r.text) ++ ".txt")) ∧
       ∀ c : Char, isForbiddenFilenameChar c = true →
         c ∉ (pySlice MAX_FILENAME_LENGHT (sanitize_filename nm)).data) ∧
    (∀ (net : String → Option Response) (url nm folder : String) (r : Response),
       net url = some r →
       (download_image net url nm folder).result =
         Except.ok (pathJoin folder ((splitext nm).1 ++ "_" ++ get_hash r.content ++
           (splitext nm).2))) := by
  constructor
  · intro net url nm folder r h
    constructor
    · simp [download_txt, h]
    · intro c hc hmem
      have hmem2 : c ∈ (sanitize_filename nm).data.take MAX_FILENAME_LENGHT := hmem
      have hmem3 : c ∈ nm.data.filter (fun c => !(isForbiddenFilenameChar c)) :=
        List.take_subset _ _ hmem2
      have hpred := (List.mem_filter.mp hmem3).2
      rw [hc] at hpred
      simp at hpred
  · intro net url nm folder r h
    simp [download_image, h]

/-- Witness for C7: the naming formulas at a concrete text and image
download, and the absence of a forbidden character in the sanitized text
name. -/
theorem c7_naming_policy_witness :
    (download_txt c7wNet "http://a/7" "My:Book" "books").result =
      Except.ok (pathJoin "books" (pySlice MAX_FILENAME_LENGHT (sanitize_filename "My:Book") ++
        "_" ++ get_hash (utf8Encode "bodytext") ++ ".txt")) ∧
    '<' ∉ (pySlice MAX_FILENAME_LENGHT (sanitize_filename "My:Book")).data ∧
    (download_image c7wNet "http://a/7" "c.jpg" "images").result =
      Except.ok (pathJoin "images" ((splitext "c.jpg").1 ++ "_" ++ get_hash [3, 4] ++
        (splitext "c.jpg").2)) :=
  ⟨(c7_naming_policy.1 c7wNet "http://a/7" "My:Book" "books"
      ⟨200, "bodytext", [3, 4], "http://a/7"⟩ rfl).1,
   (c7_naming_policy.1 c7wNet "http://a/7" "My:Book" "books"
      ⟨200, "bodytext", [3, 4], "http://a/7"⟩ rfl).2 '<' (by decide),
   c7_naming_policy.2 c7wNet "http://a/7" "c.jpg" "images"
      ⟨200, "bodytext", [3, 4], "http://a/7"⟩ rfl⟩

/-- C8: the claim says a fetch failure writes nothing.  True for a
transport error — but for a non-200 status the swallowed exception lets
`download_txt` write the error-page body to disk and return the path as a
success: here a 302 answer still produces one written file containing the
redirect body and an `ok` result, while the transport-error case writes
nothing and raises `ConnectionError`. -/
theorem c8_non200_still_writes :
    (c8Net "http://tululu.org/txt.php?id=55").map Response.status = some 302 ∧
    (download_txt c8Net "http://tululu.org/txt.php?id=55" "Some Book" "books").writes.map
      Prod.snd = [FileData.text "Moved"] ∧
    ((download_txt c8Net "http://tululu.org/txt.php?id=55" "Some Book" "books").result.toOption
      ).isSome = true ∧
    (download_txt (fun _ => none) "http://tululu.org/txt.php?id=55" "Some Book" "books").writes
      = [] ∧
    (download_txt (fun _ => none) "http://tululu.org/txt.php?id=55" "Some Book" "books").result
      = Except.error PyErr.connectionError := by decide

/-- C9: a heading whose text splits on `::` into three or more parts makes
the tuple unpacking raise `ValueError`: extraction fails, the loop body
writes no file for that book and ends in the error the orchestrator
catches. -/
theorem c9_multi_separator (net : String → Option Response) (soupOf : String → Soup)
    (args : Args) (txt_path img_path link : String) (r : Response) (headText : String)
    (hnet : net link = some r)
    (hh1 : (soupOf r.text).h1 = some headText)
    (hsplit : 3 ≤ (pySplit headText "::").length) :
    (parse_book_info net soupOf link).result = Except.error PyErr.valueError ∧
    (processBook net soupOf args txt_path img_path link).writes = [] ∧
    (processBook net soupOf args txt_path img_path link).result =
      Except.error PyErr.valueError := by
  have herr : (parse_book_info net soupOf link).result = Except.error PyErr.valueError := by
    rcases hs : pySplit headText "::" with _ | ⟨x, _ | ⟨y, _ | ⟨z, rest⟩⟩⟩
    · rw [hs] at hsplit; simp at hsplit
    · rw [hs] at hsplit; simp at hsplit
    · rw [hs] at hsplit; simp at hsplit
    · simp only [parse_book_info, hnet, hh1, hs]
  exact ⟨herr, by simp only [processBook, herr], by simp only [processBook, herr]⟩

/-- Witness for C9: the heading `A :: B :: C` splits into three parts and
the book is skipped with nothing written. -/
theorem c9_multi_separator_witness :
    (parse_book_info c9Net c9SoupOf "http://tululu.org/b7/").result =
      Except.error PyErr.valueError ∧
    (processBook c9Net c9SoupOf c1Args "books" "images" "http://tululu.org/b7/").writes = [] ∧
    (processBook c9Net c9SoupOf c1Args "books" "images" "http://tululu.org/b7/").result =
      Except.error PyErr.valueError :=
  c9_multi_separator c9Net c9SoupOf c1Args "books" "images" "http://tululu.org/b7/"
    ⟨200, "bk7", [], "http://tululu.org/b7/"⟩ "A :: B :: C" rfl (by decide) (by decide)

/-- C10: every entry of any run's manifest carries `book_src` when texts
are not skipped and `img_src` when images are not skipped (a description
is appended only after every non-skipped download succeeded); and the loop
body is not atomic — when extraction and the text download succeed but the
image download then fails, the body's writes are exactly the already
written text file while the book ends in an error and is absent from the
manifest. -/
theorem c10_manifest_and_partial_writes :
    (∀ (net : String → Option Response) (soupOf : String → Soup) (args : Args)
       (bs : List Description) (d : Description),
       (main net soupOf args).manifest = some bs → d ∈ bs →
       (args.skip_txt = false → d.book_src.isSome = true) ∧
       (args.skip_imgs = false → d.img_src.isSome = true)) ∧
    (∀ (net : String → Option Response) (soupOf : String → Soup) (args : Args)
       (txt_path img_path link : String) (info : BookInfo) (r : Response),
       args.skip_txt = false → args.skip_imgs = false →
       (parse_book_info net soupOf link).result = Except.ok info →
       net info.book_txt_url = some r →
       net info.book_image_url = none →
       (processBook net soupOf args txt_path img_path link).writes =
         (download_txt net info.book_txt_url info.title txt_path).writes ∧
       (download_txt net info.book_txt_url info.title txt_path).writes ≠ [] ∧
       (processBook net soupOf args txt_path img_path link).result =
         Except.error PyErr.connectionError) := by
  constructor
  · intro net soupOf args bs d hman hmem
    simp only [main] at hman
    split at hman
    · simp at hman
    · split at hman
      · simp at hman
      · split at hman
        · simp at hman
        · simp only [Option.some.injEq] at hman
          subst hman
          refine crawl_books_pred net soupOf args _ _
            (fun d2 => (args.skip_txt = false → d2.book_src.isSome = true) ∧
              (args.skip_imgs = false → d2.img_src.isSome = true))
            (fun link d2 hres => processBook_ok_srcs _ _ _ _ _ _ _ hres) _ _ ?_ d hmem
          intro d2 hd2
          simp at hd2
  · intro net soupOf args txt_path img_path link info r hst hsi hpe hnt hni
    simp [processBook, hpe, txtStage, hst, imageStage, hsi, download_txt, hnt,
      download_image, hni]

/-- Witness for C10: the first book of the concrete successful crawl
carries both asset paths, and on the book whose image URL fails after a
successful text download the body's writes are the text file alone while
the book errors out. -/
theorem c10_witness :
    ((c1Args.skip_txt = false → c10Book.book_src.isSome = true) ∧
     (c1Args.skip_imgs = false → c10Book.img_src.isSome = true)) ∧
    ((processBook c10Net c10SoupOf c1Args "books" "images" "http://tululu.org/b5/").writes =
       (download_txt c10Net c10Info.book_txt_url c10Info.title "books").writes ∧
     (download_txt c10Net c10Info.book_txt_url c10Info.title "books").writes ≠ [] ∧
     (processBook c10Net c10SoupOf c1Args "books" "images" "http://tululu.org/b5/").result =
       Except.error PyErr.connectionError) :=
  ⟨c10_manifest_and_partial_writes.1 c1Net c1Soup c1Args
      ((main c1Net c1Soup c1Args).manifest.getD []) c10Book (by decide) (by decide),
   c10_manifest_and_partial_writes.2 c10Net c10SoupOf c1Args "books" "images"
      "http://tululu.org/b5/" c10Info ⟨200, "five", [], "http://tululu.org/dl/5.txt"⟩
      rfl rfl (by decide) (by decide) (by decide)⟩

end Tululu
